import Mathlib

/-!
Shallow embedding of the JoseFinnder audio-fingerprinting pipeline
(src/songConverter.py, src/create_database.py, src/query_database.py)
and proofs of the specification claims about it.

Conventions: millisecond durations and offsets are `Nat` (Python ints);
file-system state is the list of existing paths; external collaborators
(audio decoder `pydub`, transcription engine `basic_pitch`, MIDI parser
`pretty_midi`, vector index `chromadb`) are modelled as explicit outcome
parameters, so every code path of the repository's own functions is
represented. Floating-point arithmetic is modelled over `ℝ`; fingerprint
values are an abstract type `V` wherever the pipeline only moves them
around.
-/

namespace JoseFinnder

/-! ## Definitions -/

/-! ### Parameters (songConverter.py lines 13-18) -/

def DURACION_SEGMENTO_MS : Nat := 10 * 1000

def PASO_MS : Nat := 5 * 1000

/-- `os.path.join("resultados", "audio_fragments")`. -/
def OUTPUT_DIR_AUDIO : String := "resultados/audio_fragments"

/-- `os.path.join("resultados", "midi_output")`. -/
def OUTPUT_DIR_MIDI : String := "resultados/midi_output"

/-! ### Windowing arithmetic (segmentar_audio_file, lines 56-59) -/

/-- Python `range(0, stop, paso)` for `paso > 0`: the ascending list of the
multiples of `paso` strictly below `stop` (line 59 builds
`indices = list(range(0, len(cancion) - duracion_ms + 1, paso_ms))`; the
repository only ever calls this with a positive step). -/
def rangeStep (stop paso : Nat) : List Nat :=
  (List.range ((stop + paso - 1) / paso)).map (· * paso)

/-- The window start offsets computed by `segmentar_audio_file`
(lines 56-59): empty when the track is shorter than one window, else
`range(0, len - duracion + 1, paso)`. -/
def indicesSegmentos (lenCancion duracion paso : Nat) : List Nat :=
  if lenCancion < duracion then []
  else rangeStep (lenCancion - duracion + 1) paso

/-- The `(start_ms, end_ms)` windows the segmenter materializes: each slice
`cancion[inicio_ms : inicio_ms + duracion_ms]` (lines 66-72). -/
def ventanas (lenCancion duracion paso : Nat) : List (Nat × Nat) :=
  (indicesSegmentos lenCancion duracion paso).map (fun s => (s, s + duracion))

/-! ### Fingerprint extraction (crear_vector_caracteristicas, lines 20-38)

A parsed MIDI object is its instrument count together with the pitch-class
energy matrix that the external `get_chroma(fs)` call returns; the matrix is
supplied as data since `pretty_midi` is an external collaborator. The
`except` branch of the source (a chroma-construction exception → `None`) is
an external-failure path, represented on the pipeline side by
`LecturaMidi.falla` below. -/

structure PrettyMIDI where
  T : Nat
  instrumentos : Nat
  get_chroma : Nat → Fin 12 → Fin T → ℝ

/-- `np.mean(vector_chroma, axis=1)` (line 30): the time-average of each of
the 12 pitch-class rows. -/
noncomputable def vector_promedio (m : PrettyMIDI) (fs : Nat) : Fin 12 → ℝ :=
  fun i => (∑ j, m.get_chroma fs i j) / m.T

/-- `np.linalg.norm` (line 31): the Euclidean norm of a 12-vector. -/
noncomputable def l2norma (v : Fin 12 → ℝ) : ℝ :=
  Real.sqrt (∑ i, v i ^ 2)

/-- `crear_vector_caracteristicas` (lines 20-38): `None` when there are no
instrument tracks, else the time-averaged chroma at `fs = 5`, divided by its
norm only when that norm is positive. -/
noncomputable def crear_vector_caracteristicas (m : PrettyMIDI) : Option (Fin 12 → ℝ) :=
  if m.instrumentos = 0 then none
  else if 0 < l2norma (vector_promedio m 5) then
    some (fun i => vector_promedio m 5 i / l2norma (vector_promedio m 5))
  else some (vector_promedio m 5)

/-- A one-instrument, one-column, all-ones chroma input. -/
def midiUno : PrettyMIDI :=
  { T := 1, instrumentos := 1, get_chroma := fun _ _ _ => 1 }

/-- A parse result with zero instrument tracks (no notes detected). -/
def midiSinNotas : PrettyMIDI :=
  { T := 1, instrumentos := 0, get_chroma := fun _ _ _ => 0 }

/-! ### File-system model

Only path existence matters to the repository's own control flow
(`os.path.exists` checks and `shutil.rmtree` deletions). -/

structure FS where
  files : List String

def FS.existe (fs : FS) (p : String) : Bool := fs.files.contains p

/-- `p` lies under directory `dir` (its name extends `dir ++ "/"`). -/
def bajo (dir p : String) : Bool := (dir ++ "/").data.isPrefixOf p.data

/-- `shutil.rmtree(dir)`: every path under `dir` disappears. -/
def FS.rmtree (fs : FS) (dir : String) : FS :=
  ⟨fs.files.filter (fun p => !(bajo dir p))⟩

/-- A successful `export` / artifact write creates the path. -/
def FS.crear (fs : FS) (p : String) : FS := ⟨p :: fs.files⟩

def fsVacio : FS := ⟨[]⟩

/-! ### Path construction (songConverter.py lines 60, 67, 81-87) -/

/-- Python `f"⟨i⟩:03d"` zero-padding to width 3. -/
def pad3 (i : Nat) : String :=
  if i < 10 then "00" ++ toString i
  else if i < 100 then "0" ++ toString i
  else toString i

/-- `os.path.join(dir_salida, f"segmento_⟨i⟩:03d.wav")` (lines 60 and 67). -/
def nombre_segmento (dir_salida : String) (i : Nat) : String :=
  (dir_salida ++ "/") ++ ("segmento_" ++ pad3 i ++ ".wav")

/-- `os.path.basename`: the part after the last `/` (the whole name when it
has no slash). -/
def basename (p : String) : String :=
  ⟨p.data.foldl (fun acc c => if c = '/' then [] else acc ++ [c]) []⟩

/-- `os.path.splitext(...)[0]`: everything before the last `.` (the name
itself when it has no dot; the leading-dot corner of `splitext` does not
arise for the `segmento_*.wav` names this is applied to). -/
def sin_extension (p : String) : String :=
  if p.data.contains '.' then
    ⟨(((p.data.reverse).dropWhile (fun c => !(c == '.'))).drop 1).reverse⟩
  else p

/-- `obtener_ruta_midi_desde_segmento` (lines 81-87):
`os.path.join(dir_midi, base + "_basic_pitch.mid")`. -/
def obtener_ruta_midi_desde_segmento (ruta_segmento dir_midi : String) : String :=
  (dir_midi ++ "/") ++ (sin_extension (basename ruta_segmento) ++ "_basic_pitch.mid")

/-! ### Segmentation (segmentar_audio_file, lines 42-79)

`decodifica` stands for the external `AudioSegment.from_file` call: `none`
when it raises (caught at lines 52-54), `some len` for a decoded track of
`len` milliseconds. Per-segment `export` (external I/O, lines 73-77) is
modelled as succeeding; its failure branch only drops a path from the
returned list. -/

structure ResultadoSegmentacion where
  rutas : List String
  fs : FS
  exportados : Nat
  reuso : Bool

/-- The creation loop, lines 65-78: for each window index, skip the export
when the file already exists and overwrite was not requested, else write it.
`exportados` counts actual `export` calls (re-decoding work). -/
def crearSegmentos (dir_salida : String) (overwrite : Bool) :
    List Nat → Nat → FS → List String × FS × Nat
  | [], _, fs => ([], fs, 0)
  | _inicio :: resto, i, fs =>
    let nombre := nombre_segmento dir_salida i
    if !overwrite && fs.existe nombre then
      let r := crearSegmentos dir_salida overwrite resto (i + 1) fs
      (nombre :: r.1, r.2.1, r.2.2)
    else
      let r := crearSegmentos dir_salida overwrite resto (i + 1) (fs.crear nombre)
      (nombre :: r.1, r.2.1, r.2.2 + 1)

def segmentar_audio_file (decodifica : Option Nat) (dir_salida : String)
    (duracion_ms paso_ms : Nat) (overwrite : Bool) (fs : FS) : ResultadoSegmentacion :=
  match decodifica with
  | none => ⟨[], fs, 0, false⟩
  | some lenCancion =>
    if lenCancion < duracion_ms then ⟨[], fs, 0, false⟩
    else
      let indices := rangeStep (lenCancion - duracion_ms + 1) paso_ms
      let expected_names := (List.range indices.length).map (nombre_segmento dir_salida)
      if !overwrite && expected_names.all fs.existe then
        ⟨expected_names, fs, 0, true⟩
      else
        let r := crearSegmentos dir_salida overwrite indices 0 fs
        ⟨r.1, r.2.1, r.2.2, false⟩

/-! ### Batch transcription (convertir_segmentos_a_midi, lines 89-119) -/

/-- Outcome of the external `predict_and_save` batch call: it returns
normally having written one MIDI per pending segment, or it raises before
returning any data. -/
inductive MotorOutcome where
  | escribe
  | lanza

structure ResultadoConversion where
  fs : FS
  invocoMotor : Bool

/-- `convertir_segmentos_a_midi` (lines 89-119). The `except` branch
(lines 118-119) catches the engine's exception, prints it and returns
normally with nothing written — the function has no error channel. -/
def convertir_segmentos_a_midi (motor : MotorOutcome) (rutas_segmentos : List String)
    (dir_midi : String) (overwrite : Bool) (fs : FS) : ResultadoConversion :=
  if rutas_segmentos.isEmpty then ⟨fs, false⟩
  else
    let pendientes := rutas_segmentos.filter
      (fun r => overwrite || !(fs.existe (obtener_ruta_midi_desde_segmento r dir_midi)))
    if pendientes.isEmpty then ⟨fs, false⟩
    else
      match motor with
      | .escribe => ⟨⟨pendientes.map (obtener_ruta_midi_desde_segmento · dir_midi) ++ fs.files⟩, true⟩
      | .lanza => ⟨fs, true⟩

/-! ### Vector extraction (extraer_vectores_de_midis, lines 121-139)

`lee` is the per-path outcome of `pretty_midi.PrettyMIDI(ruta)` followed by
`crear_vector_caracteristicas`: a caught parse/chroma exception, a `None`
fingerprint (no notes), or a valid fingerprint value. -/

inductive LecturaMidi (V : Type) where
  | falla
  | sinNotas
  | vec (v : V)

def extraer_loop {V : Type} (lee : String → LecturaMidi V) (fs : FS) :
    List String → List V → List V
  | [], vectores => vectores
  | ruta :: resto, vectores =>
    if !(fs.existe ruta) then extraer_loop lee fs resto vectores
    else
      match lee ruta with
      | .falla => extraer_loop lee fs resto vectores
      | .sinNotas => extraer_loop lee fs resto vectores
      | .vec v => extraer_loop lee fs resto (vectores ++ [v])

def extraer_vectores_de_midis {V : Type} (lee : String → LecturaMidi V)
    (rutas_midis : List String) (fs : FS) : List V :=
  extraer_loop lee fs rutas_midis []

/-! ### Per-song pipeline (procesar_cancion_completa, lines 141-193) -/

structure ResultadoProceso (V : Type) where
  vectores : List V
  fs : FS
  exportados : Nat
  reusoSegmentos : Bool
  invocoMotor : Bool

/-- `procesar_cancion_completa`: deletes both output directories up front
(lines 154-162, "Limpiamos los directorios ANTES de empezar"), segments,
returns early on an empty segmentation (lines 167-168), transcribes,
extracts vectors from the expected MIDI paths, and optionally cleans up
(lines 180-191). The returned value is only the vector list; the other
fields record the side effects. -/
def procesar_cancion_completa {V : Type} (decodifica : Option Nat) (motor : MotorOutcome)
    (lee : String → LecturaMidi V) (dir_audio dir_midi : String) (limpiar : Bool)
    (duracion_ms paso_ms : Nat) (fs0 : FS) : ResultadoProceso V :=
  let fs1 := (fs0.rmtree dir_audio).rmtree dir_midi
  let seg := segmentar_audio_file decodifica dir_audio duracion_ms paso_ms false fs1
  if seg.rutas.isEmpty then ⟨[], seg.fs, seg.exportados, seg.reuso, false⟩
  else
    let conv := convertir_segmentos_a_midi motor seg.rutas dir_midi false seg.fs
    let rutas_midis := seg.rutas.map (obtener_ruta_midi_desde_segmento · dir_midi)
    let vectores := extraer_vectores_de_midis lee rutas_midis conv.fs
    let fs2 := if limpiar then (conv.fs.rmtree dir_audio).rmtree dir_midi else conv.fs
    ⟨vectores, fs2, seg.exportados, seg.reuso, conv.invocoMotor⟩

/-! ### Index population (create_database.py) -/

/-- A persisted chromadb record: id, embedding, and the metadata keys the
scripts use (`cancion`, `inicio_segundos`). -/
structure EntradaIndice (V : Type) where
  id : String
  vector : V
  cancion : String
  inicio_segundos : ℚ

structure Coleccion (V : Type) where
  entradas : List (EntradaIndice V)

/-- `collection.get(where=("cancion": nombre), limit=1)` (line 28). -/
def Coleccion.getPorCancion {V : Type} (c : Coleccion V) (nombre : String) :
    List (EntradaIndice V) :=
  (c.entradas.filter (fun e => e.cancion == nombre)).take 1

def Coleccion.add {V : Type} (c : Coleccion V) (nuevas : List (EntradaIndice V)) :
    Coleccion V :=
  ⟨c.entradas ++ nuevas⟩

def Coleccion.count {V : Type} (c : Coleccion V) : Nat := c.entradas.length

/-- `f[campo]` where `f` is a plain 1-D numpy float vector (the element type
of what `procesar_cancion_completa` returns, `list[np.ndarray]`) and `campo`
a string key: numpy raises `IndexError` — a string is not a valid index into
a non-structured array. `create_database.py` lines 41-43 perform exactly this
subscription (`f['id']`, `f['vector']`, `f['metadata']`) on each fragment.
The success type `α` is free because no value is ever produced. -/
def campo_de_ndarray {V : Type} (α : Type) (_f : V) (_campo : String) : Except String α :=
  .error "IndexError: only integers, slices, ellipsis, numpy.newaxis and integer or boolean arrays are valid indices"

def indexErrorMsg : String :=
  "IndexError: only integers, slices, ellipsis, numpy.newaxis and integer or boolean arrays are valid indices"

/-- One catalog item together with the behaviour of the external calls made
while processing it: `nombre` is `os.path.basename(ruta_cancion)` (line 26),
`decodifica`/`motor`/`lee` drive the per-song pipeline, and `addFalla` says
whether `collection.add` would raise (caught at lines 52-53). -/
structure Cancion (V : Type) where
  nombre : String
  decodifica : Option Nat
  motor : MotorOutcome
  lee : String → LecturaMidi V
  addFalla : Bool

/-- One iteration of the `poblar_base_de_datos` loop (lines 25-53):
de-duplication check, per-song pipeline with `limpiar=True` and the default
directories and window parameters, then the id/vector/metadata
comprehensions and the guarded `collection.add`. `.error` is an uncaught
Python exception propagating out of the loop body; `.ok` carries the new
collection, file system, and the number of entries upserted. -/
def procesar_una_cancion {V : Type} (c : Coleccion V) (fs : FS) (s : Cancion V) :
    Except String (Coleccion V × FS × Nat) :=
  if (c.getPorCancion s.nombre).isEmpty then
    let r := procesar_cancion_completa s.decodifica s.motor s.lee
      OUTPUT_DIR_AUDIO OUTPUT_DIR_MIDI true DURACION_SEGMENTO_MS PASO_MS fs
    if r.vectores.isEmpty then .ok (c, r.fs, 0)
    else
      match r.vectores.mapM (fun f => campo_de_ndarray String f "id") with
      | .error e => .error e
      | .ok ids =>
        match r.vectores.mapM (fun f => campo_de_ndarray V f "vector") with
        | .error e => .error e
        | .ok vecs =>
          match r.vectores.mapM (fun f => campo_de_ndarray (String × ℚ) f "metadata") with
          | .error e => .error e
          | .ok metas =>
            if s.addFalla then .ok (c, r.fs, 0)
            else .ok (c.add ((ids.zip (vecs.zip metas)).map
              (fun p => ⟨p.1, p.2.1, p.2.2.1, p.2.2.2⟩)), r.fs, ids.length)
  else .ok (c, fs, 0)

structure PoblarResult (V : Type) where
  error : Option String
  coleccion : Coleccion V
  atendidas : List String

/-- The catalog loop of `poblar_base_de_datos` (lines 20-57): songs are
processed in order; an uncaught exception aborts the whole run, every later
song unattempted. `atendidas` records the songs whose loop iteration was
entered. -/
def poblar_loop {V : Type} : Coleccion V → FS → List (Cancion V) → PoblarResult V
  | c, _, [] => ⟨none, c, []⟩
  | c, fs, s :: resto =>
    match procesar_una_cancion c fs s with
    | .error e => ⟨some e, c, [s.nombre]⟩
    | .ok (c', fs', _) =>
      let r := poblar_loop c' fs' resto
      ⟨r.error, r.coleccion, s.nombre :: r.atendidas⟩

/-- `poblar_base_de_datos` on a given catalog (the `glob` result), starting
collection and file system. -/
def poblar_base_de_datos {V : Type} (c : Coleccion V) (fs : FS)
    (archivos_audio : List (Cancion V)) : PoblarResult V :=
  poblar_loop c fs archivos_audio

/-! ### Query side (query_database.py) -/

/-- Outcome of the external `predict` call on the query clip: it raises
(undecodable/unreadable audio, caught at lines 36-38), or returns a parsed
`midi_data`. -/
inductive ResultadoPredict where
  | lanza
  | resultado (m : PrettyMIDI)

/-- `obtener_vector_de_query` (lines 15-38): `None` when `predict` raised or
no instruments were detected, else the fingerprint of the whole clip. -/
noncomputable def obtener_vector_de_query (p : ResultadoPredict) : Option (Fin 12 → ℝ) :=
  match p with
  | .lanza => none
  | .resultado m =>
    if m.instrumentos = 0 then none
    else crear_vector_caracteristicas m

/-- A reported match: song name, offset in seconds, cosine distance
(lines 60-70). -/
structure Coincidencia where
  cancion : String
  inicio_segundos : ℚ
  distancia : ℝ

/-- The environment of `buscar_similares`: whether `get_collection`
succeeds, and the ranked nearest-neighbour list chromadb returns for a
query vector (the index itself is external). -/
structure EntornoBusqueda where
  coleccionExiste : Bool
  resultados : (Fin 12 → ℝ) → List Coincidencia

/-- `buscar_similares` (lines 40-70): returns the printed matches and
whether a similarity query was actually issued. A missing collection prints
an error and reports nothing; `n_results=top_k` truncates the ranked list. -/
def buscar_similares (env : EntornoBusqueda) (vq : Fin 12 → ℝ) (top_k : Nat) :
    List Coincidencia × Bool :=
  if env.coleccionExiste then ((env.resultados vq).take top_k, true)
  else ([], false)

/-- The process-level observables of the query entry point. -/
structure SalidaQuery where
  codigo : Nat
  reportes : List Coincidencia
  busco : Bool

/-- The environment of the query `__main__`: command-line arguments after
the script name, `os.path.exists`, the `predict` outcome per path, and the
search environment. -/
structure EntornoQuery where
  args : List String
  existeArchivo : String → Bool
  predice : String → ResultadoPredict
  busqueda : EntornoBusqueda

/-- `query_database.py.__main__` (lines 73-87): exit 1 when no argument or
the path does not exist; otherwise run `obtener_vector_de_query`, and only
when it returns a vector call `buscar_similares(..., top_k=1)`. Falling off
the end of the script is exit status 0. -/
noncomputable def query_main (env : EntornoQuery) : SalidaQuery :=
  match env.args with
  | [] => ⟨1, [], false⟩
  | ruta :: _ =>
    if env.existeArchivo ruta then
      match obtener_vector_de_query (env.predice ruta) with
      | none => ⟨0, [], false⟩
      | some v =>
        let r := buscar_similares env.busqueda v 1
        ⟨0, r.1, r.2⟩
    else ⟨1, [], false⟩

/-! ### Concrete instances used by witnesses and counterexamples -/

def colVacia : Coleccion Nat := ⟨[]⟩

def colUna : Coleccion Nat := ⟨[⟨"uno.mp3_0", 7, "uno.mp3", 0⟩]⟩

/-- A 10-second song whose single window transcribes to a valid fingerprint. -/
def cancionUno : Cancion Nat :=
  ⟨"uno.mp3", some 10000, .escribe, fun _ => .vec 0, false⟩

/-- A 15-second song (two windows): reading the first window's MIDI fails,
the second yields a fingerprint. -/
def cancionFalloParcial : Cancion Nat :=
  ⟨"uno.mp3", some 15000, .escribe,
    fun r => if r = "resultados/midi_output/segmento_000_basic_pitch.mid" then .falla
      else .vec 0, false⟩

def cancionDos : Cancion Nat :=
  ⟨"dos.mp3", some 10000, .escribe, fun _ => .vec 0, false⟩

/-- A song whose batch transcription call raises. -/
def cancionLanza : Cancion Nat :=
  ⟨"tres.mp3", some 10000, .lanza, fun _ => .vec 0, false⟩

def leeSinNotas : String → LecturaMidi Nat := fun _ => .sinNotas

/-- Working area pre-populated with the segment and transcription artifacts
of a one-window song under directories `a` and `m`. -/
def fsPreexistente : FS := ⟨["a/segmento_000.wav", "m/segmento_000_basic_pitch.mid"]⟩

def fsUnSegmento : FS := ⟨["a/segmento_000.wav"]⟩

def busquedaVacia : EntornoBusqueda := ⟨true, fun _ => []⟩

def coincidenciaUno : Coincidencia := ⟨"uno.mp3", 5, 0⟩

def busquedaUna : EntornoBusqueda := ⟨true, fun _ => [coincidenciaUno]⟩

/-- Query environment: the file exists but `predict` raises on it
(unreadable/undecodable audio). -/
def envIlegible : EntornoQuery := ⟨["clip.wav"], fun _ => true, fun _ => .lanza, busquedaVacia⟩

/-- Query environment: readable clip in which zero notes are detected. -/
def envSinNotas : EntornoQuery :=
  ⟨["clip.wav"], fun _ => true, fun _ => .resultado midiSinNotas, busquedaVacia⟩

/-- Query environment: readable clip with notes, index answering one match. -/
def envLegible : EntornoQuery :=
  ⟨["clip.wav"], fun _ => true, fun _ => .resultado midiUno, busquedaUna⟩

/-! ## Theorems -/

/-! ### Windowing (claim C5) -/

lemma length_rangeStep (stop paso : Nat) :
    (rangeStep stop paso).length = (stop + paso - 1) / paso := by
  simp [rangeStep]

lemma indicesSegmentos_of_ge (lenCancion duracion paso : Nat)
    (hd : duracion ≤ lenCancion) (hp : 0 < paso) :
    indicesSegmentos lenCancion duracion paso =
      (List.range ((lenCancion - duracion) / paso + 1)).map (· * paso) := by
  have hnot : ¬ lenCancion < duracion := not_lt.mpr hd
  rw [indicesSegmentos, if_neg hnot, rangeStep]
  have h1 : lenCancion - duracion + 1 + paso - 1 = lenCancion - duracion + paso := by
    omega
  rw [h1, Nat.add_div_right _ hp]

lemma ventanas_of_ge (L d p : Nat) (hd : d ≤ L) (hp : 0 < p) :
    ventanas L d p = (List.range ((L - d) / p + 1)).map (fun k => (k * p, k * p + d)) := by
  rw [ventanas, indicesSegmentos_of_ge L d p hd hp, List.map_map]
  rfl

lemma ventanas_of_lt (L d p : Nat) (hL : L < d) : ventanas L d p = [] := by
  simp [ventanas, indicesSegmentos, hL]

lemma mem_ventanas_iff (L d p : Nat) (hp : 0 < p) (s e : Nat) :
    (s, e) ∈ ventanas L d p ↔ p ∣ s ∧ s + d ≤ L ∧ e = s + d := by
  rcases lt_or_ge L d with hL | hd
  · rw [ventanas_of_lt L d p hL]
    simp only [List.not_mem_nil, false_iff]
    rintro ⟨-, hse, -⟩
    omega
  · rw [ventanas_of_ge L d p hd hp]
    simp only [List.mem_map, List.mem_range, Prod.mk.injEq]
    constructor
    · rintro ⟨k, hk, hks, hke⟩
      refine ⟨⟨k, hks ▸ (Nat.mul_comm k p)⟩, ?_, by omega⟩
      have hkle : k ≤ (L - d) / p := Nat.lt_succ_iff.mp hk
      have : k * p ≤ (L - d) / p * p := Nat.mul_le_mul_right p hkle
      have hdiv : (L - d) / p * p ≤ L - d := Nat.div_mul_le_self _ _
      omega
    · rintro ⟨⟨m, rfl⟩, hse, rfl⟩
      refine ⟨m, ?_, Nat.mul_comm m p, by rw [Nat.mul_comm]⟩
      have hc : m * p = p * m := Nat.mul_comm m p
      have hmp : m * p ≤ L - d := by omega
      exact Nat.lt_succ_of_le ((Nat.le_div_iff_mul_le hp).mpr hmp)

/-- **C5.** The windowing computation of `segmentar_audio_file`: for positive
window and hop, it returns the empty sequence when the track is shorter than
one window, otherwise exactly the windows `(k*paso, k*paso + duracion)` for
`k = 0, 1, …, (L - duracion)/paso` (i.e. every start `s` that is a multiple of
the hop with `s + duracion ≤ L`, and no others — so no partial trailing window);
the length is `0` in the short case and `(L - duracion)/paso + 1` otherwise
(the claim's `max(0, ⌊(L-d)/p⌋ + 1)`), and every window has length exactly
`duracion`. Determinism is definitional: `ventanas` is a pure function of its
three arguments. -/
theorem ventanas_spec (L d p : Nat) (hd : 0 < d) (hp : 0 < p) :
    (L < d → ventanas L d p = []) ∧
    (d ≤ L → ventanas L d p
        = (List.range ((L - d) / p + 1)).map (fun k => (k * p, k * p + d))) ∧
    (ventanas L d p).length = (if L < d then 0 else (L - d) / p + 1) ∧
    (∀ w ∈ ventanas L d p, w.2 - w.1 = d) ∧
    (∀ s e, (s, e) ∈ ventanas L d p ↔ p ∣ s ∧ s + d ≤ L ∧ e = s + d) := by
  refine ⟨ventanas_of_lt L d p, fun h => ventanas_of_ge L d p h hp, ?_, ?_,
    mem_ventanas_iff L d p hp⟩
  · rcases lt_or_ge L d with hL | hge
    · rw [ventanas_of_lt L d p hL, if_pos hL]
      rfl
    · rw [ventanas_of_ge L d p hge hp, if_neg (not_lt.mpr hge)]
      simp
  · intro w hw
    obtain ⟨s, e⟩ := w
    obtain ⟨-, -, he⟩ := (mem_ventanas_iff L d p hp s e).mp hw
    omega

/-- Witness for `ventanas_spec` at the spec's end-to-end scenario shape
(20 length units, window 10, hop 5 → three windows). -/
theorem ventanas_spec_witness :
    0 < 10 ∧ 0 < 5 ∧ ventanas 20 10 5 = [(0, 10), (5, 15), (10, 20)] :=
  ⟨by decide, by decide, by
    rw [(ventanas_spec 20 10 5 (by decide) (by decide)).2.1 (by decide)]
    decide⟩

/-! ### Fingerprint extraction (claim C6) -/

lemma sum_sq_nonneg (v : Fin 12 → ℝ) : 0 ≤ ∑ i, v i ^ 2 :=
  Finset.sum_nonneg fun i _ => sq_nonneg (v i)

lemma l2norma_eq_zero_iff (v : Fin 12 → ℝ) : l2norma v = 0 ↔ v = 0 := by
  rw [l2norma, Real.sqrt_eq_zero (sum_sq_nonneg v)]
  constructor
  · intro h
    funext i
    have h2 := (Finset.sum_eq_zero_iff_of_nonneg fun i _ => sq_nonneg (v i)).mp h i
      (Finset.mem_univ i)
    exact (pow_eq_zero_iff two_ne_zero).mp h2
  · rintro rfl
    simp

lemma l2norma_pos_iff (v : Fin 12 → ℝ) : 0 < l2norma v ↔ v ≠ 0 := by
  have h0 : 0 ≤ l2norma v := Real.sqrt_nonneg _
  rw [h0.lt_iff_ne]
  exact (ne_comm.trans (not_congr (l2norma_eq_zero_iff v)))

lemma l2norma_normalizado (v : Fin 12 → ℝ) (hv : v ≠ 0) :
    l2norma (fun i => v i / l2norma v) = 1 := by
  have hS : (0:ℝ) < ∑ i, v i ^ 2 := Real.sqrt_pos.mp ((l2norma_pos_iff v).mpr hv)
  unfold l2norma
  simp only [div_pow]
  rw [← Finset.sum_div, Real.sq_sqrt hS.le, div_self (ne_of_gt hS), Real.sqrt_one]

/-- **C6.** The Fingerprint Extractor: an input with no instrument tracks
yields `none` (absent, not an error); a nonempty input whose time-averaged
chroma vector (sampled at `fs = 5`) is non-zero yields a fingerprint of L2
norm exactly 1; a nonempty input whose pre-normalization vector is exactly
zero yields the zero vector unnormalized (the positive-norm guard means the
division is never performed on a zero norm). -/
theorem crear_vector_caracteristicas_spec (m : PrettyMIDI) :
    (m.instrumentos = 0 → crear_vector_caracteristicas m = none) ∧
    (m.instrumentos ≠ 0 → vector_promedio m 5 ≠ 0 →
        ∃ w, crear_vector_caracteristicas m = some w ∧ l2norma w = 1) ∧
    (m.instrumentos ≠ 0 → vector_promedio m 5 = 0 →
        crear_vector_caracteristicas m = some 0) := by
  refine ⟨fun h0 => by simp [crear_vector_caracteristicas, h0], ?_, ?_⟩
  · intro hI hv
    have hN : 0 < l2norma (vector_promedio m 5) := (l2norma_pos_iff _).mpr hv
    exact ⟨fun i => vector_promedio m 5 i / l2norma (vector_promedio m 5),
      by simp [crear_vector_caracteristicas, hI, hN], l2norma_normalizado _ hv⟩
  · intro hI hv
    have hN : ¬ 0 < l2norma (vector_promedio m 5) := by
      rw [(l2norma_eq_zero_iff _).mpr hv]
      exact lt_irrefl 0
    unfold crear_vector_caracteristicas
    rw [if_neg hI, if_neg hN, hv]

lemma vector_promedio_midiUno : vector_promedio midiUno 5 = fun _ => 1 := by
  funext i
  simp [vector_promedio, midiUno]

/-- Witness for `crear_vector_caracteristicas_spec` on the all-ones input. -/
theorem crear_vector_caracteristicas_spec_witness :
    midiUno.instrumentos ≠ 0 ∧ vector_promedio midiUno 5 ≠ 0 ∧
    ∃ w, crear_vector_caracteristicas midiUno = some w ∧ l2norma w = 1 := by
  have hv : vector_promedio midiUno 5 ≠ 0 := by
    rw [vector_promedio_midiUno]
    intro h
    have h0 := congrFun h 0
    norm_num at h0
  exact ⟨by decide, hv, (crear_vector_caracteristicas_spec midiUno).2.1 (by decide) hv⟩

/-! ### Vector extraction: order, omission, totality (claim C10) -/

lemma existe_iff (fs : FS) (p : String) : fs.existe p = true ↔ p ∈ fs.files := by
  simp [FS.existe]

lemma extraer_loop_acc {V : Type} (lee : String → LecturaMidi V) (fs : FS)
    (rutas : List String) :
    ∀ acc : List V, extraer_loop lee fs rutas acc = acc ++ extraer_loop lee fs rutas [] := by
  induction rutas with
  | nil => intro acc; simp [extraer_loop]
  | cons ruta resto ih =>
    intro acc
    cases hex : fs.existe ruta with
    | false =>
      simp only [extraer_loop, hex, Bool.not_false, if_true]
      exact ih acc
    | true =>
      cases hl : lee ruta with
      | falla =>
        simp only [extraer_loop, hex, Bool.not_true, Bool.false_eq_true, if_false, hl]
        exact ih acc
      | sinNotas =>
        simp only [extraer_loop, hex, Bool.not_true, Bool.false_eq_true, if_false, hl]
        exact ih acc
      | vec v =>
        simp only [extraer_loop, hex, Bool.not_true, Bool.false_eq_true, if_false, hl,
          List.nil_append]
        rw [ih (acc ++ [v]), ih [v], List.append_assoc]

lemma extraer_eq_filterMap {V : Type} (lee : String → LecturaMidi V)
    (fs : FS) (rutas : List String) :
    extraer_vectores_de_midis lee rutas fs = rutas.filterMap (fun ruta =>
      if fs.existe ruta then
        match lee ruta with
        | .vec v => some v
        | _ => none
      else none) := by
  induction rutas with
  | nil => rfl
  | cons ruta resto ih =>
    unfold extraer_vectores_de_midis at ih ⊢
    cases hex : fs.existe ruta with
    | false =>
      simp only [extraer_loop, hex, Bool.not_false, if_true, List.filterMap_cons,
        Bool.false_eq_true, if_false]
      exact ih
    | true =>
      cases hl : lee ruta with
      | falla =>
        simp only [extraer_loop, hex, Bool.not_true, Bool.false_eq_true, if_false, hl,
          List.filterMap_cons, if_true]
        exact ih
      | sinNotas =>
        simp only [extraer_loop, hex, Bool.not_true, Bool.false_eq_true, if_false, hl,
          List.filterMap_cons, if_true]
        exact ih
      | vec v =>
        simp only [extraer_loop, hex, Bool.not_true, Bool.false_eq_true, if_false, hl,
          List.filterMap_cons, if_true, List.nil_append]
        rw [extraer_loop_acc lee fs resto [v], ih]
        rfl

/-- **C10.** `extraer_vectores_de_midis` equals a `filterMap` over the input
path list: each path contributes its fingerprint exactly when it exists on
disk, parses, and yields notes, and contributes nothing otherwise — so the
output preserves the relative order of the inputs, silently omits every
missing/unparseable/note-free path, and (being a total function) never
raises. Because omitted paths leave no placeholder, the position of a vector
in the output carries no association with the window index it came from. -/
theorem extraer_vectores_caracterizacion {V : Type} (lee : String → LecturaMidi V)
    (fs : FS) (rutas : List String) :
    extraer_vectores_de_midis lee rutas fs = rutas.filterMap (fun ruta =>
      if fs.existe ruta then
        match lee ruta with
        | .vec v => some v
        | _ => none
      else none) :=
  extraer_eq_filterMap lee fs rutas

/-! ### Path facts -/

lemma getLast?_data_append (a b : String) (h : b.data ≠ []) :
    (a ++ b).data.getLast? = b.data.getLast? := by
  rw [String.data_append]
  exact List.getLast?_append_of_ne_nil _ h

lemma data_append_ne_nil (a b : String) (h : b.data ≠ []) : (a ++ b).data ≠ [] := by
  rw [String.data_append]
  intro hc
  exact h (List.append_eq_nil.mp hc).2

/-- Every segment artifact name ends in `'v'` (of `".wav"`). -/
lemma ultima_nombre_segmento (dir : String) (i : Nat) :
    (nombre_segmento dir i).data.getLast? = some 'v' := by
  unfold nombre_segmento
  rw [getLast?_data_append _ _ (data_append_ne_nil _ _ (by decide)),
    getLast?_data_append _ _ (by decide)]
  rfl

/-- Every transcription artifact name ends in `'d'` (of `"_basic_pitch.mid"`). -/
lemma ultima_ruta_midi (ruta dm : String) :
    (obtener_ruta_midi_desde_segmento ruta dm).data.getLast? = some 'd' := by
  unfold obtener_ruta_midi_desde_segmento
  rw [getLast?_data_append _ _ (data_append_ne_nil _ _ (by decide)),
    getLast?_data_append _ _ (by decide)]
  rfl

lemma nombre_segmento_ne_midi (dir : String) (i : Nat) (ruta dm : String) :
    nombre_segmento dir i ≠ obtener_ruta_midi_desde_segmento ruta dm := by
  intro h
  have hv := ultima_nombre_segmento dir i
  rw [h, ultima_ruta_midi] at hv
  exact absurd hv (by decide)

lemma bajo_nombre_segmento (dir : String) (i : Nat) :
    bajo dir (nombre_segmento dir i) = true := by
  unfold bajo nombre_segmento
  rw [String.data_append, List.isPrefixOf_iff_prefix]
  exact List.prefix_append _ _

lemma bajo_ruta_midi (ruta dm : String) :
    bajo dm (obtener_ruta_midi_desde_segmento ruta dm) = true := by
  unfold bajo obtener_ruta_midi_desde_segmento
  rw [String.data_append, List.isPrefixOf_iff_prefix]
  exact List.prefix_append _ _

lemma mem_rmtree (fs : FS) (dir p : String) :
    p ∈ (fs.rmtree dir).files ↔ p ∈ fs.files ∧ bajo dir p = false := by
  simp [FS.rmtree, List.mem_filter]

/-! ### What the segmenter creates -/

lemma crearSegmentos_spec (dir : String) (ow : Bool) (ind : List Nat) :
    ∀ (i : Nat) (fs : FS),
      (∀ r ∈ (crearSegmentos dir ow ind i fs).1, ∃ j, r = nombre_segmento dir j) ∧
      (∀ p ∈ (crearSegmentos dir ow ind i fs).2.1.files,
        (∃ j, p = nombre_segmento dir j) ∨ p ∈ fs.files) := by
  induction ind with
  | nil =>
    intro i fs
    exact ⟨fun r hr => absurd hr (List.not_mem_nil r), fun p hp => Or.inr hp⟩
  | cons a resto ih =>
    intro i fs
    simp only [crearSegmentos]
    split
    · obtain ⟨h1, h2⟩ := ih (i + 1) fs
      refine ⟨fun r hr => ?_, h2⟩
      rcases List.mem_cons.mp hr with rfl | hr'
      · exact ⟨i, rfl⟩
      · exact h1 r hr'
    · obtain ⟨h1, h2⟩ := ih (i + 1) (fs.crear (nombre_segmento dir i))
      constructor
      · intro r hr
        rcases List.mem_cons.mp hr with rfl | hr'
        · exact ⟨i, rfl⟩
        · exact h1 r hr'
      · intro p hp
        rcases h2 p hp with hj | hmem
        · exact Or.inl hj
        · rcases List.mem_cons.mp hmem with rfl | h'
          · exact Or.inl ⟨i, rfl⟩
          · exact Or.inr h'

lemma segmentar_fs_files (d : Option Nat) (dir : String) (dur pas : Nat) (ow : Bool)
    (fs : FS) :
    ∀ p ∈ (segmentar_audio_file d dir dur pas ow fs).fs.files,
      (∃ j, p = nombre_segmento dir j) ∨ p ∈ fs.files := by
  cases d with
  | none => exact fun p hp => Or.inr hp
  | some L =>
    simp only [segmentar_audio_file]
    split
    · exact fun p hp => Or.inr hp
    · split
      · exact fun p hp => Or.inr hp
      · exact fun p hp => (crearSegmentos_spec dir ow _ 0 fs).2 p hp

/-! ### Engine failure analysis (claim C3) -/

lemma convertir_lanza_fs (rutas : List String) (dm : String) (ow : Bool) (fs : FS) :
    (convertir_segmentos_a_midi .lanza rutas dm ow fs).fs = fs := by
  simp only [convertir_segmentos_a_midi]
  split
  · rfl
  · split
    · rfl
    · rfl

lemma extraer_nada {V : Type} (lee : String → LecturaMidi V) (rutas : List String)
    (fs : FS) (h : ∀ r ∈ rutas, fs.existe r = false) :
    extraer_vectores_de_midis lee rutas fs = [] := by
  rw [extraer_eq_filterMap]
  exact List.filterMap_eq_nil_iff.mpr fun r hr => by simp [h r hr]

lemma procesar_lanza_vectores {V : Type} (d : Option Nat) (lee : String → LecturaMidi V)
    (da dm : String) (lp : Bool) (dms pms : Nat) (fs0 : FS) :
    (procesar_cancion_completa d .lanza lee da dm lp dms pms fs0).vectores = [] := by
  simp only [procesar_cancion_completa]
  split
  · rfl
  · show extraer_vectores_de_midis lee _ _ = []
    rw [convertir_lanza_fs]
    apply extraer_nada
    intro p hp
    obtain ⟨r, hr, rfl⟩ := List.mem_map.mp hp
    cases hcase : (segmentar_audio_file d da dms pms false
        ((fs0.rmtree da).rmtree dm)).fs.existe (obtener_ruta_midi_desde_segmento r dm) with
    | false => rfl
    | true =>
      exfalso
      have hmem := (existe_iff _ _).mp hcase
      rcases segmentar_fs_files d da dms pms false _ _ hmem with ⟨j, hj⟩ | hmem1
      · exact nombre_segmento_ne_midi da j r dm hj.symm
      · obtain ⟨-, hb⟩ := (mem_rmtree _ _ _).mp hmem1
        rw [bajo_ruta_midi] at hb
        exact Bool.noConfusion hb

/-- **C3 counterexample.** The caller of the per-song pipeline observes only
the returned vector list (`create_database.py` line 35 binds nothing else).
On a decodable 10-unit track whose batch transcription call raises before
writing anything, the pipeline returns `[]` normally — exactly the value a
benign engine-succeeds-but-no-notes run returns — so the engine failure is
caught, printed and swallowed, not reported to the caller as the claim
states. -/
theorem motor_lanza_no_reportado :
    (procesar_cancion_completa (some 10) .lanza leeSinNotas "a" "m" false 10 5
        fsVacio).vectores
      = (procesar_cancion_completa (some 10) .escribe leeSinNotas "a" "m" false 10 5
        fsVacio).vectores ∧
    (procesar_cancion_completa (some 10) .lanza leeSinNotas "a" "m" false 10 5
        fsVacio).vectores = [] := by
  constructor
  · decide
  · decide

/-- **C3 amended.** If the batch transcription engine call raises before
returning any data, the exception is caught and only logged: the per-song
pipeline still returns normally with an empty fingerprint list (so the
song's ingestion is abandoned for the run and no partial fingerprints
exist), and the populator loop upserts nothing for that song and leaves the
collection unchanged — but no error reaches the caller. -/
theorem motor_lanza_abandona (V : Type) :
    (∀ (d : Option Nat) (lee : String → LecturaMidi V) (da dm : String) (lp : Bool)
        (dms pms : Nat) (fs0 : FS),
      (procesar_cancion_completa d .lanza lee da dm lp dms pms fs0).vectores = []) ∧
    (∀ (c : Coleccion V) (fs : FS) (s : Cancion V), s.motor = .lanza →
      ∃ fs2, procesar_una_cancion c fs s = .ok (c, fs2, 0)) := by
  refine ⟨fun d lee da dm lp dms pms fs0 => procesar_lanza_vectores d lee da dm lp dms pms fs0, ?_⟩
  intro c fs s hm
  unfold procesar_una_cancion
  split
  · rw [hm]
    have hv := procesar_lanza_vectores s.decodifica s.lee OUTPUT_DIR_AUDIO OUTPUT_DIR_MIDI
      true DURACION_SEGMENTO_MS PASO_MS fs
    simp only [hv, List.isEmpty_nil, if_true]
    exact ⟨_, rfl⟩
  · exact ⟨fs, rfl⟩

/-- Witness for `motor_lanza_abandona` on a concrete engine-raising song. -/
theorem motor_lanza_abandona_witness :
    cancionLanza.motor = .lanza ∧
    ∃ fs2, procesar_una_cancion colVacia fsVacio cancionLanza = .ok (colVacia, fs2, 0) :=
  ⟨rfl, (motor_lanza_abandona Nat).2 colVacia fsVacio cancionLanza rfl⟩

/-! ### Cache reuse (claim C4) -/

/-- **C4 counterexample.** Working area pre-populated with exactly the
segment and transcription artifacts of the one-window song (10-unit track,
window 10, hop 5, directories `a` and `m`), overwrite not requested: the
per-song pipeline still re-exports the segment (`exportados = 1`, not `0`),
does not take the reuse path, and invokes the transcription engine again —
because `procesar_cancion_completa` deletes both working directories before
segmenting (lines 154-162). -/
theorem procesar_no_reusa_artefactos :
    (procesar_cancion_completa (some 10) .escribe leeSinNotas "a" "m" false 10 5
        fsPreexistente).reusoSegmentos = false ∧
    (procesar_cancion_completa (some 10) .escribe leeSinNotas "a" "m" false 10 5
        fsPreexistente).exportados = 1 ∧
    (procesar_cancion_completa (some 10) .escribe leeSinNotas "a" "m" false 10 5
        fsPreexistente).invocoMotor = true := by
  refine ⟨rfl, rfl, rfl⟩

lemma segmentar_reuso_false (L : Nat) (da : String) (dms pms : Nat) (hp : 0 < pms)
    (fs1 : FS) (h0 : fs1.existe (nombre_segmento da 0) = false) :
    (segmentar_audio_file (some L) da dms pms false fs1).reuso = false := by
  simp only [segmentar_audio_file]
  split
  · rfl
  · have hn : 0 < (rangeStep (L - dms + 1) pms).length := by
      rw [length_rangeStep]
      exact Nat.div_pos (by omega) hp
    have hall : (((List.range (rangeStep (L - dms + 1) pms).length).map
        (nombre_segmento da)).all fs1.existe) = false := by
      apply Bool.eq_false_iff.mpr
      intro htrue
      have hmem : nombre_segmento da 0 ∈ (List.range (rangeStep (L - dms + 1) pms).length).map
          (nombre_segmento da) :=
        List.mem_map.mpr ⟨0, List.mem_range.mpr hn, rfl⟩
      have hcon := List.all_eq_true.mp htrue _ hmem
      rw [h0] at hcon
      exact Bool.noConfusion hcon
    simp only [Bool.not_false, Bool.true_and, hall]
    rfl

lemma procesar_reuso_false {V : Type} (d : Option Nat) (motor : MotorOutcome)
    (lee : String → LecturaMidi V) (da dm : String) (lp : Bool) (dms pms : Nat)
    (hp : 0 < pms) (fs0 : FS) :
    (procesar_cancion_completa d motor lee da dm lp dms pms fs0).reusoSegmentos = false := by
  have hkey : ∀ fs1 : FS, fs1 = (fs0.rmtree da).rmtree dm →
      (segmentar_audio_file d da dms pms false fs1).reuso = false := by
    rintro fs1 rfl
    cases d with
    | none => rfl
    | some L =>
      apply segmentar_reuso_false L da dms pms hp
      cases hcase : ((fs0.rmtree da).rmtree dm).existe (nombre_segmento da 0) with
      | false => rfl
      | true =>
        exfalso
        have hmem := (existe_iff _ _).mp hcase
        obtain ⟨hmem1, -⟩ := (mem_rmtree _ _ _).mp hmem
        obtain ⟨-, hb⟩ := (mem_rmtree _ _ _).mp hmem1
        rw [bajo_nombre_segmento] at hb
        exact Bool.noConfusion hb
  simp only [procesar_cancion_completa]
  split
  · show (segmentar_audio_file d da dms pms false ((fs0.rmtree da).rmtree dm)).reuso = false
    exact hkey _ rfl
  · show (segmentar_audio_file d da dms pms false ((fs0.rmtree da).rmtree dm)).reuso = false
    exact hkey _ rfl

/-- **C4 amended.** The artifact-reuse optimization lives in the helpers:
`segmentar_audio_file` with overwrite off returns the expected names without
a single export when they all already exist, and
`convertir_segmentos_a_midi` does not invoke the engine when every target
MIDI already exists. But `procesar_cancion_completa` deletes both working
directories before segmenting, so a run of the per-song pipeline never takes
the reuse path, regardless of what a prior run retained. -/
theorem cache_reuso_amended (V : Type) :
    (∀ (L dur pas : Nat) (dir : String) (fs : FS),
        ¬ L < dur →
        (((List.range (rangeStep (L - dur + 1) pas).length).map
          (nombre_segmento dir)).all fs.existe) = true →
        segmentar_audio_file (some L) dir dur pas false fs
          = ⟨(List.range (rangeStep (L - dur + 1) pas).length).map (nombre_segmento dir),
              fs, 0, true⟩) ∧
    (∀ (motor : MotorOutcome) (rutas : List String) (dm : String) (fs : FS),
        (∀ r ∈ rutas, fs.existe (obtener_ruta_midi_desde_segmento r dm) = true) →
        convertir_segmentos_a_midi motor rutas dm false fs = ⟨fs, false⟩) ∧
    (∀ (d : Option Nat) (motor : MotorOutcome) (lee : String → LecturaMidi V)
        (da dm : String) (lp : Bool) (dms pms : Nat) (fs0 : FS), 0 < pms →
        (procesar_cancion_completa d motor lee da dm lp dms pms fs0).reusoSegmentos
          = false) := by
  refine ⟨?_, ?_, fun d motor lee da dm lp dms pms fs0 hp =>
    procesar_reuso_false d motor lee da dm lp dms pms hp fs0⟩
  · intro L dur pas dir fs hL hall
    simp only [segmentar_audio_file]
    rw [if_neg hL]
    simp only [Bool.not_false, Bool.true_and, hall]
    rfl
  · intro motor rutas dm fs hex
    simp only [convertir_segmentos_a_midi]
    split
    · rfl
    · have hfil : (rutas.filter
          (fun r => false || !(fs.existe (obtener_ruta_midi_desde_segmento r dm)))) = [] := by
        apply List.filter_eq_nil_iff.mpr
        intro r hr
        simp [hex r hr]
      rw [hfil]
      rfl

/-- Witness for `cache_reuso_amended`: the one-window reuse scenario. -/
theorem cache_reuso_amended_witness :
    (¬ (10:Nat) < 10) ∧
    ((((List.range (rangeStep (10 - 10 + 1) 5).length).map
        (nombre_segmento "a")).all fsUnSegmento.existe) = true) ∧
    segmentar_audio_file (some 10) "a" 10 5 false fsUnSegmento
      = ⟨(List.range (rangeStep (10 - 10 + 1) 5).length).map (nombre_segmento "a"),
          fsUnSegmento, 0, true⟩ :=
  ⟨by decide, by decide, (cache_reuso_amended Nat).1 10 10 5 "a" fsUnSegmento
    (by decide) (by decide)⟩

/-! ### Ingestion writes and batch propagation (claims C1, C2, C7) -/

/-- **C1 (code bug).** A 10-second song whose single window yields a valid
fingerprint (`N = 1`): the claim (and §3 of the spec) says ingestion writes
exactly one index entry with a derived id and
`(cancion, inicio_segundos)` metadata. Instead `poblar_base_de_datos`
crashes: `procesar_cancion_completa` returns bare vectors
(`list[np.ndarray]`), the loop subscripts them as dicts (`f['id']`,
lines 41-43), numpy raises `IndexError`, and zero entries are written — no
id or metadata is ever constructed anywhere in the repository. -/
theorem poblar_escribe_cero_entradas :
    (poblar_base_de_datos colVacia fsVacio [cancionUno]).error = some indexErrorMsg ∧
    (poblar_base_de_datos colVacia fsVacio [cancionUno]).coleccion.count = 0 :=
  ⟨by decide, by decide⟩

/-- **C2 (code bug).** A two-song catalog whose first song has a
fingerprint-construction failure on its first window (its MIDI fails to
read) while the second window succeeds: the claim (and §7 of the spec) says
the second song is still attempted. Instead the first song's surviving
fingerprint reaches the dict-subscription of lines 41-43, the uncaught
`IndexError` aborts the whole batch, and the second song is never
attempted. -/
theorem poblar_aborta_lote :
    (poblar_base_de_datos colVacia fsVacio [cancionFalloParcial, cancionDos]).error
        = some indexErrorMsg ∧
    (poblar_base_de_datos colVacia fsVacio [cancionFalloParcial, cancionDos]).atendidas
        = ["uno.mp3"] :=
  ⟨by decide, by decide⟩

/-- **C7.** De-duplication: whenever the index already holds an entry whose
`cancion` metadata equals the song's id, the loop body returns immediately
with the collection unchanged and zero upserts — the song is not
reprocessed, so a second ingestion leaves the index entry count unchanged. -/
theorem ingesta_idempotente {V : Type} (c : Coleccion V) (fs : FS) (s : Cancion V)
    (h : ∃ e ∈ c.entradas, e.cancion = s.nombre) :
    procesar_una_cancion c fs s = .ok (c, fs, 0) := by
  obtain ⟨e, he, heq⟩ := h
  have hne : (c.entradas.filter (fun e => e.cancion == s.nombre)) ≠ [] := by
    intro hnil
    have hmem : e ∈ c.entradas.filter (fun e => e.cancion == s.nombre) :=
      List.mem_filter.mpr ⟨he, by simp [heq]⟩
    rw [hnil] at hmem
    exact List.not_mem_nil e hmem
  have hemp : (c.getPorCancion s.nombre).isEmpty = false := by
    unfold Coleccion.getPorCancion
    cases hcl : c.entradas.filter (fun e => e.cancion == s.nombre) with
    | nil => exact absurd hcl hne
    | cons a t => rfl
  unfold procesar_una_cancion
  rw [hemp]
  simp

/-- Witness for `ingesta_idempotente`: a collection already holding an entry
for `uno.mp3` and a second ingestion attempt of the same song. -/
theorem ingesta_idempotente_witness :
    (∃ e ∈ colUna.entradas, e.cancion = cancionUno.nombre) ∧
    procesar_una_cancion colUna fsVacio cancionUno = .ok (colUna, fsVacio, 0) :=
  ⟨by decide, ingesta_idempotente colUna fsVacio cancionUno (by decide)⟩

/-! ### Query entry point (claims C8, C9) -/

/-- A nonempty parse always yields some fingerprint (either branch of the
norm test returns `some`) — the query side's "best-effort fingerprint". -/
lemma crear_isSome (m : PrettyMIDI) (h : m.instrumentos ≠ 0) :
    ∃ w, crear_vector_caracteristicas m = some w := by
  unfold crear_vector_caracteristicas
  rw [if_neg h]
  split
  · exact ⟨_, rfl⟩
  · exact ⟨_, rfl⟩

/-- **C8 counterexample.** The file exists but `predict` raises on it (an
unreadable/undecodable clip): the claim says the entry point exits non-zero,
but the exception is caught inside `obtener_vector_de_query`, which returns
`None`, and the script falls off the end — exit status 0, nothing
reported. -/
theorem query_ilegible_codigo_cero :
    (query_main envIlegible).codigo = 0 ∧ (query_main envIlegible).reportes = [] :=
  ⟨rfl, rfl⟩

/-- **C8 amended.** The query entry point exits non-zero exactly when no
path argument was supplied or the path does not exist on disk. An existing
file whose decoding/transcription raises exits zero with nothing reported
(and no search issued). When a fingerprint is obtained and the collection
exists, it reports the top-1 ranked match (`top_k=1`) with exit status 0. -/
theorem query_main_spec (env : EntornoQuery) :
    ((query_main env).codigo ≠ 0 ↔
      env.args = [] ∨ ∃ ruta resto, env.args = ruta :: resto ∧
        env.existeArchivo ruta = false) ∧
    (∀ ruta resto, env.args = ruta :: resto → env.existeArchivo ruta = true →
      env.predice ruta = .lanza → query_main env = ⟨0, [], false⟩) ∧
    (∀ ruta resto v, env.args = ruta :: resto → env.existeArchivo ruta = true →
      obtener_vector_de_query (env.predice ruta) = some v →
      env.busqueda.coleccionExiste = true →
      (query_main env).codigo = 0 ∧
      (query_main env).reportes = (env.busqueda.resultados v).take 1) := by
  refine ⟨?_, ?_, ?_⟩
  · cases hargs : env.args with
    | nil => simp [query_main, hargs]
    | cons ruta resto =>
      cases hex : env.existeArchivo ruta with
      | false => simp [query_main, hargs, hex]
      | true =>
        cases hv : obtener_vector_de_query (env.predice ruta) with
        | none => simp [query_main, hargs, hex, hv]
        | some v => simp [query_main, hargs, hex, hv]
  · intro ruta resto hargs hex hp
    simp [query_main, hargs, hex, hp, obtener_vector_de_query]
  · intro ruta resto v hargs hex hv hcol
    constructor
    · simp [query_main, hargs, hex, hv]
    · simp [query_main, hargs, hex, hv, buscar_similares, hcol]

/-- Witness for `query_main_spec`: a readable clip with notes against an
index answering one match. -/
theorem query_main_spec_witness :
    envLegible.args = "clip.wav" :: [] ∧
    envLegible.existeArchivo "clip.wav" = true ∧
    envLegible.busqueda.coleccionExiste = true ∧
    ∃ v, obtener_vector_de_query (envLegible.predice "clip.wav") = some v ∧
      (query_main envLegible).codigo = 0 ∧
      (query_main envLegible).reportes = (envLegible.busqueda.resultados v).take 1 := by
  obtain ⟨w, hw⟩ := crear_isSome midiUno (by decide)
  have hov : obtener_vector_de_query (envLegible.predice "clip.wav") = some w := by
    show obtener_vector_de_query (.resultado midiUno) = some w
    rw [obtener_vector_de_query, if_neg (by decide : ¬ midiUno.instrumentos = 0), hw]
  have hall := (query_main_spec envLegible).2.2 "clip.wav" [] w rfl rfl hov rfl
  exact ⟨rfl, rfl, rfl, w, hov, hall.1, hall.2⟩

/-- **C9.** A query clip in which zero notes are detected (a parse with no
instrument tracks): `obtener_vector_de_query` returns `None` — not an error
— and the entry point reports nothing, exits 0, and never issues a
similarity search (`busco = false`). -/
theorem query_sin_notas_vacio (env : EntornoQuery) (ruta : String) (resto : List String)
    (m : PrettyMIDI) (hargs : env.args = ruta :: resto)
    (hex : env.existeArchivo ruta = true) (hp : env.predice ruta = .resultado m)
    (hm : m.instrumentos = 0) :
    obtener_vector_de_query (env.predice ruta) = none ∧
    query_main env = ⟨0, [], false⟩ := by
  have hov : obtener_vector_de_query (env.predice ruta) = none := by
    rw [hp]
    simp [obtener_vector_de_query, hm]
  exact ⟨hov, by simp [query_main, hargs, hex, hov]⟩

/-- Witness for `query_sin_notas_vacio` on a concrete zero-notes clip. -/
theorem query_sin_notas_vacio_witness :
    envSinNotas.args = "clip.wav" :: [] ∧ envSinNotas.existeArchivo "clip.wav" = true ∧
    envSinNotas.predice "clip.wav" = .resultado midiSinNotas ∧
    midiSinNotas.instrumentos = 0 ∧
    (obtener_vector_de_query (envSinNotas.predice "clip.wav") = none ∧
      query_main envSinNotas = ⟨0, [], false⟩) :=
  ⟨rfl, rfl, rfl, rfl,
    query_sin_notas_vacio envSinNotas "clip.wav" [] midiSinNotas rfl rfl rfl rfl⟩

end JoseFinnder
